import Mathlib

/-!
Shallow embedding of the balance/ledger subsystem of the yandex-market-bot
repository (src/database.py and the ledger-touching handlers in
src/handlers/admin.py and src/handlers/payments.py).

The SQLite tables become lists of row structures; each transactional
function of database.py becomes a pure function from a database state to a
new database state (or an Except value when the source raises).  Monetary
values (REAL columns) are modelled with exact rational arithmetic.
-/

/-- Status values of the CHECK constraints on orders.status and
withdraw_requests.status. -/
inductive RowStatus
  | pending
  | approved
  | rejected
deriving DecidableEq, Repr

/-- A row of the users table (ledger-relevant columns). -/
structure UserRow where
  user_id : Nat
  username : Option String
  phone : Option String
  referred_by : Option Nat
  balance : ℚ
  is_blocked : Bool
deriving DecidableEq, Repr

/-- A row of the orders table. -/
structure OrderRow where
  id : Nat
  user_id : Nat
  product_url : String
  photo_id : String
  status : RowStatus
deriving DecidableEq, Repr

/-- A row of the withdraw_requests table. -/
structure WithdrawRow where
  id : Nat
  user_id : Nat
  amount : ℚ
  wallet : String
  withdraw_type : String
  status : RowStatus
deriving DecidableEq, Repr

/-- A row of the referrals table; (referrer_id, referred_id) carries a
UNIQUE constraint in the schema. -/
structure ReferralRow where
  referrer_id : Nat
  referred_id : Nat
  bonus : ℚ
  level : Nat
deriving DecidableEq, Repr

/-- The persistent store: the four ledger tables plus the AUTOINCREMENT
counters for the two id-generating tables used by the claims. -/
structure DBState where
  users : List UserRow
  orders : List OrderRow
  withdraw_requests : List WithdrawRow
  referrals : List ReferralRow
  next_order_id : Nat
  next_withdraw_id : Nat
deriving DecidableEq, Repr

/-- The ValueError conditions raised by the transactional functions of
database.py. -/
inductive DBError
  | userNotFound
  | insufficientBalance
  | withdrawNotFound
deriving DecidableEq, Repr

/-- SELECT * FROM users WHERE user_id = ? with fetchone semantics. -/
def find_user (db : DBState) (uid : Nat) : Option UserRow :=
  db.users.find? (fun r => r.user_id == uid)

/-- database.py get_user_balance: returns the stored balance, or 0 when the
user row is absent (defensive default). -/
def get_user_balance (db : DBState) (uid : Nat) : ℚ :=
  match find_user db uid with
  | some r => r.balance
  | none => 0

/-- UPDATE users SET balance = ? WHERE user_id = ? . -/
def set_balance_rows (users : List UserRow) (uid : Nat) (b : ℚ) : List UserRow :=
  users.map (fun r => if r.user_id = uid then { r with balance := b } else r)

/-- database.py update_user_balance: raises when the user row is absent,
otherwise stores max(0, current + delta) inside one exclusive transaction. -/
def update_user_balance (db : DBState) (uid : Nat) (delta : ℚ) : Except DBError DBState :=
  match find_user db uid with
  | none => .error .userNotFound
  | some r => .ok { db with users := set_balance_rows db.users uid (max 0 (r.balance + delta)) }

/-- database.py add_user_balance: UPDATE users SET balance = balance + ?
WHERE user_id = ? ; a plain SQL update that affects zero rows (and raises
nothing) when the user is unknown, and adds without clamping otherwise. -/
def add_user_balance (db : DBState) (uid : Nat) (amount : ℚ) : DBState :=
  { db with users := db.users.map (fun r => if r.user_id = uid then { r with balance := r.balance + amount } else r) }

/-- database.py cancel_order: UPDATE orders SET status = 'rejected'
WHERE id = ? AND user_id = ? (note: no status condition). -/
def cancel_order (db : DBState) (uid order_id : Nat) : DBState :=
  { db with orders := db.orders.map (fun o => if o.id = order_id ∧ o.user_id = uid then { o with status := RowStatus.rejected } else o) }

/-- database.py update_order_status: unconditional UPDATE orders
SET status = ? WHERE id = ? . -/
def update_order_status (db : DBState) (order_id : Nat) (st : RowStatus) : DBState :=
  { db with orders := db.orders.map (fun o => if o.id = order_id then { o with status := st } else o) }

/-- handlers/admin.py approve_order: sets the order approved, then looks the
order up and unconditionally credits 10000 to its owner via
add_user_balance. -/
def approve_order (db : DBState) (order_id : Nat) : DBState :=
  let db1 := update_order_status db order_id RowStatus.approved
  match db1.orders.find? (fun o => o.id == order_id) with
  | some o => add_user_balance db1 o.user_id 10000
  | none => db1

/-- SELECT * FROM withdraw_requests WHERE id = ? with fetchone semantics. -/
def find_withdraw (db : DBState) (wid : Nat) : Option WithdrawRow :=
  db.withdraw_requests.find? (fun w => w.id == wid)

/-- UPDATE withdraw_requests SET status = ? WHERE id = ? . -/
def set_withdraw_rows (rows : List WithdrawRow) (wid : Nat) (st : RowStatus) : List WithdrawRow :=
  rows.map (fun w => if w.id = wid then { w with status := st } else w)

/-- database.py update_withdraw_request_status: plain status update. -/
def update_withdraw_request_status (db : DBState) (wid : Nat) (st : RowStatus) : DBState :=
  { db with withdraw_requests := set_withdraw_rows db.withdraw_requests wid st }

/-- database.py reject_withdraw_request_and_refund: reads the request row
(by id only, with no check of its current status), marks it rejected and
adds its amount back onto the owner's balance, all in one transaction. -/
def reject_withdraw_request_and_refund (db : DBState) (request_id : Nat) : Except DBError DBState :=
  match find_withdraw db request_id with
  | none => .error .withdrawNotFound
  | some req =>
    let db1 := update_withdraw_request_status db request_id RowStatus.rejected
    match find_user db1 req.user_id with
    | none => .error .userNotFound
    | some r => .ok { db1 with users := set_balance_rows db1.users req.user_id (r.balance + req.amount) }

/-- database.py create_withdraw_request: inside one exclusive transaction it
re-reads the balance, raises if the user is missing or the balance is below
the amount (nothing written yet at that point), and otherwise inserts the
pending row and writes max(0, balance - amount). -/
def create_withdraw_request (db : DBState) (uid : Nat) (amount : ℚ) (wallet withdraw_type : String) : Except DBError (DBState × Nat) :=
  match find_user db uid with
  | none => .error .userNotFound
  | some r =>
    if r.balance < amount then .error .insufficientBalance
    else
      .ok ({ db with
              withdraw_requests := db.withdraw_requests ++ [⟨db.next_withdraw_id, uid, amount, wallet, withdraw_type, RowStatus.pending⟩],
              next_withdraw_id := db.next_withdraw_id + 1,
              users := set_balance_rows db.users uid (max 0 (r.balance - amount)) }, db.next_withdraw_id)

/-- database.py set_withdraw_status: when the row exists and the new status
is 'rejected' it refunds via update_user_balance (again with no check of the
current status), then updates the status column. -/
def set_withdraw_status (db : DBState) (wid : Nat) (st : RowStatus) : Except DBError DBState :=
  match find_withdraw db wid with
  | some row =>
    if st = RowStatus.rejected then
      match update_user_balance db row.user_id row.amount with
      | .ok db1 => .ok (update_withdraw_request_status db1 wid st)
      | .error e => .error e
    else .ok (update_withdraw_request_status db wid st)
  | none => .ok (update_withdraw_request_status db wid st)

/-- database.py add_referral: INSERT OR IGNORE under the UNIQUE
(referrer_id, referred_id) constraint, then an unconditional credit of the
bonus whenever bonus > 0 (also when the insert was ignored). -/
def add_referral (db : DBState) (referrer_id referred_id : Nat) (bonus : ℚ) (level : Nat) : Except DBError DBState :=
  let db1 :=
    if db.referrals.any (fun x => x.referrer_id == referrer_id && x.referred_id == referred_id) then db
    else { db with referrals := db.referrals ++ [⟨referrer_id, referred_id, bonus, level⟩] }
  if 0 < bonus then update_user_balance db1 referrer_id bonus else .ok db1

/-- handlers/payments.py accept_withdraw: looks the request up among the
pending rows, aborts when the amount exceeds the current balance, and
otherwise calls update_user_balance with delta current_balance - amount
before marking the request approved via set_withdraw_status. -/
def accept_withdraw (db : DBState) (wid : Nat) : DBState :=
  match (db.withdraw_requests.filter (fun w => w.status == RowStatus.pending)).find? (fun w => w.id == wid) with
  | none => db
  | some w =>
    let current := get_user_balance db w.user_id
    if current < w.amount then db
    else
      match update_user_balance db w.user_id (current - w.amount) with
      | .ok db1 =>
        match set_withdraw_status db1 wid RowStatus.approved with
        | .ok db2 => db2
        | .error _ => db1
      | .error _ => db

/-- handlers/admin.py process_payment: looks the request up among the
pending rows and only updates its status to approved, touching no
balance. -/
def process_payment (db : DBState) (request_id : Nat) : DBState :=
  match (db.withdraw_requests.filter (fun w => w.status == RowStatus.pending)).find? (fun w => w.id == request_id) with
  | none => db
  | some _ => update_withdraw_request_status db request_id RowStatus.approved

/-- A sequence of update_user_balance calls on one user, each applied when
it succeeds and skipped when it raises. -/
def apply_balance_deltas : DBState → Nat → List ℚ → DBState
  | db, _, [] => db
  | db, uid, d :: ds =>
    match update_user_balance db uid d with
    | .ok db1 => apply_balance_deltas db1 uid ds
    | .error _ => apply_balance_deltas db uid ds

/-- Sequencing of two fallible store operations. -/
def andThen (e : Except DBError DBState) (f : DBState → Except DBError DBState) : Except DBError DBState :=
  match e with
  | .ok d => f d
  | .error err => .error err

/-- Observe the balance of a user after a fallible operation. -/
def viewBalance (e : Except DBError DBState) (uid : Nat) : Option ℚ :=
  match e with
  | .ok d => some (get_user_balance d uid)
  | .error _ => none

/-- Observe the referral-row count after a fallible operation. -/
def viewReferralCount (e : Except DBError DBState) : Option Nat :=
  match e with
  | .ok d => some d.referrals.length
  | .error _ => none

/-- Observe row count and balance after create_withdraw_request. -/
def viewCreate (e : Except DBError (DBState × Nat)) (uid : Nat) : Option (Nat × ℚ) :=
  match e with
  | .ok p => some (p.1.withdraw_requests.length, get_user_balance p.1 uid)
  | .error _ => none

/-!
General lemmas about the row-level operations.
-/

/-- A conditional row update that keeps the key column intact commutes with
the keyed lookup. -/
lemma find?_map_user_keyed (g : UserRow → UserRow) (hg : ∀ r, (g r).user_id = r.user_id)
    (l : List UserRow) (uid : Nat) :
    (l.map (fun r => if r.user_id = uid then g r else r)).find? (fun r => r.user_id == uid)
      = (l.find? (fun r => r.user_id == uid)).map g := by
  induction l with
  | nil => rfl
  | cons a t ih =>
    by_cases h : a.user_id = uid
    · have hpa : (a.user_id == uid) = true := by simp [h]
      have hga : ((g a).user_id == uid) = true := by simp [hg, h]
      simp only [List.map_cons, if_pos h, List.find?_cons, hpa, hga]
      rfl
    · have hpa : (a.user_id == uid) = false := by simp [h]
      simp only [List.map_cons, if_neg h, List.find?_cons, hpa]
      exact ih

/-- Looking up the user after UPDATE users SET balance = b WHERE user_id = uid. -/
lemma find?_set_balance_rows (l : List UserRow) (uid : Nat) (b : ℚ) :
    (set_balance_rows l uid b).find? (fun r => r.user_id == uid)
      = (l.find? (fun r => r.user_id == uid)).map (fun r => { r with balance := b }) :=
  find?_map_user_keyed (fun r => { r with balance := b }) (fun _ => rfl) l uid

/-- get_user_balance reads the balance column of the found row. -/
lemma get_user_balance_eq {db : DBState} {uid : Nat} {u : UserRow}
    (hu : find_user db uid = some u) : get_user_balance db uid = u.balance := by
  unfold get_user_balance
  rw [hu]

/-- update_user_balance on an existing user succeeds and stores the clamped
value. -/
lemma update_user_balance_eq {db : DBState} {uid : Nat} {u : UserRow}
    (hu : find_user db uid = some u) (d : ℚ) :
    update_user_balance db uid d
      = .ok { db with users := set_balance_rows db.users uid (max 0 (u.balance + d)) } := by
  unfold update_user_balance
  rw [hu]

/-- The balance read after a successful update_user_balance. -/
lemma get_user_balance_update {db db' : DBState} {uid : Nat} {d : ℚ}
    (h : update_user_balance db uid d = .ok db') :
    get_user_balance db' uid = max 0 (get_user_balance db uid + d) := by
  unfold update_user_balance at h
  cases hu : find_user db uid with
  | none => rw [hu] at h; simp at h
  | some u =>
    rw [hu] at h
    have hdb : { db with users := set_balance_rows db.users uid (max 0 (u.balance + d)) } = db' := by
      injection h
    subst hdb
    have hfind : find_user { db with users := set_balance_rows db.users uid (max 0 (u.balance + d)) } uid
        = some { u with balance := max 0 (u.balance + d) } := by
      show (set_balance_rows db.users uid (max 0 (u.balance + d))).find? (fun r => r.user_id == uid) = _
      rw [find?_set_balance_rows]
      rw [show db.users.find? (fun r => r.user_id == uid) = some u from hu]
      rfl
    rw [get_user_balance_eq hfind, get_user_balance_eq hu]

/-- Balances stay non-negative along any sequence of update_user_balance
calls that start from a non-negative balance. -/
lemma apply_balance_deltas_nonneg (uid : Nat) (ds : List ℚ) :
    ∀ db : DBState, 0 ≤ get_user_balance db uid →
      0 ≤ get_user_balance (apply_balance_deltas db uid ds) uid := by
  induction ds with
  | nil => intro db h; simpa [apply_balance_deltas] using h
  | cons d t ih =>
    intro db h
    cases hu : update_user_balance db uid d with
    | ok db1 =>
      have h1 : 0 ≤ get_user_balance db1 uid := by
        rw [get_user_balance_update hu]
        exact le_max_left 0 _
      simpa [apply_balance_deltas, hu] using ih db1 h1
    | error e =>
      simpa [apply_balance_deltas, hu] using ih db h

/-- find? skips a prefix on which the predicate is everywhere false. -/
lemma find?_append_right {α : Type} {p : α → Bool} {l₁ : List α} (l₂ : List α)
    (h : ∀ x ∈ l₁, p x = false) : (l₁ ++ l₂).find? p = l₂.find? p := by
  induction l₁ with
  | nil => rfl
  | cons a t ih =>
    have hpa : p a = false := h a (List.mem_cons_self a t)
    simp only [List.cons_append, List.find?_cons, hpa]
    exact ih (fun x hx => h x (List.mem_cons_of_mem a hx))

/-- The successful branch of create_withdraw_request: one pending row is
appended and the stored balance becomes exactly the old balance minus the
amount (the clamp cannot fire because the amount is at most the balance). -/
lemma create_withdraw_request_success {db : DBState} {uid : Nat} {u : UserRow}
    (hu : find_user db uid = some u) {amount : ℚ} (hle : amount ≤ u.balance)
    (wallet wtype : String) :
    create_withdraw_request db uid amount wallet wtype =
      .ok ({ db with
              withdraw_requests := db.withdraw_requests ++ [⟨db.next_withdraw_id, uid, amount, wallet, wtype, RowStatus.pending⟩],
              next_withdraw_id := db.next_withdraw_id + 1,
              users := set_balance_rows db.users uid (u.balance - amount) }, db.next_withdraw_id) := by
  unfold create_withdraw_request
  rw [hu]
  simp only [if_neg (not_lt.mpr hle)]
  rw [max_eq_right (sub_nonneg.mpr hle)]

/-- Looking a user up after set_balance_rows on the same user id. -/
lemma find_user_set_balance {l : List UserRow} {uid : Nat} {u : UserRow}
    (hu : l.find? (fun r => r.user_id == uid) = some u) (b : ℚ) :
    (set_balance_rows l uid b).find? (fun r => r.user_id == uid)
      = some { u with balance := b } := by
  rw [find?_set_balance_rows, hu]
  rfl

/-- Claim C5: inside create_withdraw_request the balance is re-read and
validated in the same atomic unit as the insert and the debit: with the
balance below the amount the call fails with the insufficient-balance error
(and, the raise happening before any write, the store keeps its pre-call
state), and with a sufficient balance it returns the fresh id, appends
exactly one pending row and debits the stored balance by exactly the
amount, leaving orders and referrals untouched. -/
theorem create_withdraw_request_checks_and_debits_atomically
    (db : DBState) (uid : Nat) (amount : ℚ) (wallet wtype : String) (u : UserRow)
    (hu : find_user db uid = some u) :
    (u.balance < amount →
      create_withdraw_request db uid amount wallet wtype = .error DBError.insufficientBalance)
    ∧ (amount ≤ u.balance →
      ∃ db', create_withdraw_request db uid amount wallet wtype = .ok (db', db.next_withdraw_id)
        ∧ db'.withdraw_requests
            = db.withdraw_requests ++ [⟨db.next_withdraw_id, uid, amount, wallet, wtype, RowStatus.pending⟩]
        ∧ get_user_balance db' uid = get_user_balance db uid - amount
        ∧ db'.orders = db.orders ∧ db'.referrals = db.referrals) := by
  constructor
  · intro hlt
    unfold create_withdraw_request
    rw [hu]
    simp only [if_pos hlt]
  · intro hle
    refine ⟨_, create_withdraw_request_success hu hle wallet wtype, rfl, ?_, rfl, rfl⟩
    have hfind : find_user { db with
        withdraw_requests := db.withdraw_requests ++ [⟨db.next_withdraw_id, uid, amount, wallet, wtype, RowStatus.pending⟩],
        next_withdraw_id := db.next_withdraw_id + 1,
        users := set_balance_rows db.users uid (u.balance - amount) } uid
        = some { u with balance := u.balance - amount } :=
      find_user_set_balance hu (u.balance - amount)
    rw [get_user_balance_eq hfind, get_user_balance_eq hu]

def w5_user : UserRow :=
  { user_id := 4, username := none, phone := none, referred_by := none, balance := 100, is_blocked := false }

def w5_db : DBState :=
  { users := [w5_user], orders := [], withdraw_requests := [], referrals := [],
    next_order_id := 1, next_withdraw_id := 1 }

/-- Witness for claim C5 at a user with balance 100: a request of 150 fails
with the insufficient-balance error and a request of 60 inserts the pending
row and debits exactly 60. -/
theorem create_withdraw_request_checks_and_debits_atomically_witness :
    (create_withdraw_request w5_db 4 150 ("w") ("card") = .error DBError.insufficientBalance)
    ∧ (∃ db', create_withdraw_request w5_db 4 60 ("w") ("card") = .ok (db', w5_db.next_withdraw_id)
        ∧ db'.withdraw_requests
            = w5_db.withdraw_requests ++ [⟨w5_db.next_withdraw_id, 4, 60, ("w"), ("card"), RowStatus.pending⟩]
        ∧ get_user_balance db' 4 = get_user_balance w5_db 4 - 60
        ∧ db'.orders = w5_db.orders ∧ db'.referrals = w5_db.referrals) :=
  ⟨(create_withdraw_request_checks_and_debits_atomically w5_db 4 150 ("w") ("card") w5_user rfl).1
      (by norm_num [w5_user]),
   (create_withdraw_request_checks_and_debits_atomically w5_db 4 60 ("w") ("card") w5_user rfl).2
      (by norm_num [w5_user])⟩

/-- Claim C6: for an existing user, update_user_balance never fails, stores
exactly max(0, current + delta), hence a non-negative value, and balances
stay non-negative along every sequence of such calls. -/
theorem update_user_balance_clamps_at_zero (db : DBState) (uid : Nat) (d : ℚ) (u : UserRow)
    (hu : find_user db uid = some u) :
    (∃ db', update_user_balance db uid d = .ok db'
      ∧ get_user_balance db' uid = max 0 (get_user_balance db uid + d)
      ∧ 0 ≤ get_user_balance db' uid)
    ∧ ∀ ds : List ℚ, 0 ≤ get_user_balance db uid →
        0 ≤ get_user_balance (apply_balance_deltas db uid ds) uid := by
  constructor
  · refine ⟨_, update_user_balance_eq hu d, get_user_balance_update (update_user_balance_eq hu d), ?_⟩
    rw [get_user_balance_update (update_user_balance_eq hu d)]
    exact le_max_left 0 _
  · intro ds
    exact apply_balance_deltas_nonneg uid ds db

def w6_user : UserRow :=
  { user_id := 2, username := none, phone := none, referred_by := none, balance := 50, is_blocked := false }

def w6_db : DBState :=
  { users := [w6_user], orders := [], withdraw_requests := [], referrals := [],
    next_order_id := 1, next_withdraw_id := 1 }

/-- Witness for claim C6 at a user with balance 50 and the debit -10000 of
the spec example, plus a concrete sequence of further deltas. -/
theorem update_user_balance_clamps_at_zero_witness :
    (∃ db', update_user_balance w6_db 2 (-10000) = .ok db'
      ∧ get_user_balance db' 2 = max 0 (get_user_balance w6_db 2 + (-10000))
      ∧ 0 ≤ get_user_balance db' 2)
    ∧ 0 ≤ get_user_balance (apply_balance_deltas w6_db 2 [(-10000), 30, (-100)]) 2 :=
  ⟨(update_user_balance_clamps_at_zero w6_db 2 (-10000) w6_user rfl).1,
   (update_user_balance_clamps_at_zero w6_db 2 (-10000) w6_user rfl).2 [(-10000), 30, (-100)]
      (by norm_num [get_user_balance, find_user, w6_db, w6_user, List.find?])⟩

/-- Claim C7: creating a withdrawal of amount A out of balance B leaves the
balance at B - A, and rejecting that same fresh request through
reject_withdraw_request_and_refund restores the balance to exactly B. -/
theorem withdraw_reject_roundtrip (db : DBState) (uid : Nat) (A : ℚ) (wallet wtype : String)
    (u : UserRow) (hu : find_user db uid = some u)
    (hfresh : ∀ w ∈ db.withdraw_requests, w.id ≠ db.next_withdraw_id)
    (hA : 0 < A) (hAB : A ≤ u.balance) :
    ∃ db1 wid db2,
      create_withdraw_request db uid A wallet wtype = .ok (db1, wid)
      ∧ get_user_balance db1 uid = get_user_balance db uid - A
      ∧ reject_withdraw_request_and_refund db1 wid = .ok db2
      ∧ get_user_balance db2 uid = get_user_balance db uid := by
  have hrow : ∀ w ∈ db.withdraw_requests, ((w.id == db.next_withdraw_id)) = false := by
    intro w hw
    simpa using hfresh w hw
  have hfind1 : find_user { db with
      withdraw_requests := db.withdraw_requests ++ [⟨db.next_withdraw_id, uid, A, wallet, wtype, RowStatus.pending⟩],
      next_withdraw_id := db.next_withdraw_id + 1,
      users := set_balance_rows db.users uid (u.balance - A) } uid
      = some { u with balance := u.balance - A } := find_user_set_balance hu (u.balance - A)
  have hwfind0 : ((db.withdraw_requests ++ [(⟨db.next_withdraw_id, uid, A, wallet, wtype, RowStatus.pending⟩ : WithdrawRow)]).find?
      (fun w => w.id == db.next_withdraw_id)) = some ⟨db.next_withdraw_id, uid, A, wallet, wtype, RowStatus.pending⟩ := by
    rw [find?_append_right _ hrow]
    simp [List.find?_cons]
  have hwfind : find_withdraw { db with
      withdraw_requests := db.withdraw_requests ++ [⟨db.next_withdraw_id, uid, A, wallet, wtype, RowStatus.pending⟩],
      next_withdraw_id := db.next_withdraw_id + 1,
      users := set_balance_rows db.users uid (u.balance - A) } db.next_withdraw_id
      = some ⟨db.next_withdraw_id, uid, A, wallet, wtype, RowStatus.pending⟩ := hwfind0
  have hfind2 : find_user { db with
      withdraw_requests := set_withdraw_rows
        (db.withdraw_requests ++ [⟨db.next_withdraw_id, uid, A, wallet, wtype, RowStatus.pending⟩])
        db.next_withdraw_id RowStatus.rejected,
      next_withdraw_id := db.next_withdraw_id + 1,
      users := set_balance_rows db.users uid (u.balance - A) } uid
      = some { u with balance := u.balance - A } := find_user_set_balance hu (u.balance - A)
  have hfind3 : find_user { db with
      withdraw_requests := set_withdraw_rows
        (db.withdraw_requests ++ [⟨db.next_withdraw_id, uid, A, wallet, wtype, RowStatus.pending⟩])
        db.next_withdraw_id RowStatus.rejected,
      next_withdraw_id := db.next_withdraw_id + 1,
      users := set_balance_rows (set_balance_rows db.users uid (u.balance - A)) uid (u.balance - A + A) } uid
      = some { u with balance := u.balance - A + A } :=
    find_user_set_balance (find_user_set_balance hu (u.balance - A)) (u.balance - A + A)
  refine ⟨_, db.next_withdraw_id,
    { db with
      withdraw_requests := set_withdraw_rows
        (db.withdraw_requests ++ [⟨db.next_withdraw_id, uid, A, wallet, wtype, RowStatus.pending⟩])
        db.next_withdraw_id RowStatus.rejected,
      next_withdraw_id := db.next_withdraw_id + 1,
      users := set_balance_rows (set_balance_rows db.users uid (u.balance - A)) uid (u.balance - A + A) },
    create_withdraw_request_success hu hAB wallet wtype, ?_, ?_, ?_⟩
  · rw [get_user_balance_eq hfind1, get_user_balance_eq hu]
  · simp only [reject_withdraw_request_and_refund, hwfind, hfind2, update_withdraw_request_status]
  · rw [get_user_balance_eq hfind3, get_user_balance_eq hu]
    show u.balance - A + A = u.balance
    ring

def w7_user : UserRow :=
  { user_id := 8, username := none, phone := none, referred_by := none, balance := 1000, is_blocked := false }

def w7_db : DBState :=
  { users := [w7_user], orders := [], withdraw_requests := [], referrals := [],
    next_order_id := 1, next_withdraw_id := 1 }

/-- Witness for claim C7 with the spec example: balance 1000, withdrawal of
400 leaving 600, rejection restoring 1000. -/
theorem withdraw_reject_roundtrip_witness :
    ∃ db1 wid db2,
      create_withdraw_request w7_db 8 400 ("w") ("card") = .ok (db1, wid)
      ∧ get_user_balance db1 8 = get_user_balance w7_db 8 - 400
      ∧ reject_withdraw_request_and_refund db1 wid = .ok db2
      ∧ get_user_balance db2 8 = get_user_balance w7_db 8 :=
  withdraw_reject_roundtrip w7_db 8 400 ("w") ("card") w7_user rfl
    (by simp [w7_db]) (by norm_num) (by norm_num [w7_user])

/-- Claim C2 as amended: the duplicate add_referral call leaves the referral
table untouched (exactly one row for the pair) but is not a no-op: the bonus
is credited on the second call as well, so the referrer ends with twice the
bonus on top of the starting balance. -/
theorem add_referral_duplicate_row_unique_but_recredits (db : DBState) (r d : Nat) (b : ℚ)
    (lv : Nat) (u : UserRow) (hu : find_user db r = some u) (hb0 : 0 ≤ u.balance) (hb : 0 < b)
    (hpair : db.referrals.any (fun x => x.referrer_id == r && x.referred_id == d) = false) :
    ∃ db1 db2, add_referral db r d b lv = .ok db1 ∧ add_referral db1 r d b lv = .ok db2
      ∧ db2.referrals.countP (fun x => x.referrer_id == r && x.referred_id == d) = 1
      ∧ get_user_balance db2 r = u.balance + b + b := by
  have hpairneg : ¬ (db.referrals.any (fun x => x.referrer_id == r && x.referred_id == d) = true) := by
    simp [hpair]
  have hu1 : find_user { db with referrals := db.referrals ++ [⟨r, d, b, lv⟩] } r = some u := hu
  have hcall1 : add_referral db r d b lv
      = .ok { db with
              referrals := db.referrals ++ [⟨r, d, b, lv⟩]
              users := set_balance_rows db.users r (max 0 (u.balance + b)) } := by
    simp only [add_referral]
    rw [if_neg hpairneg, if_pos hb, update_user_balance_eq hu1]
  have hany2 : (({ db with
      referrals := db.referrals ++ [⟨r, d, b, lv⟩]
      users := set_balance_rows db.users r (max 0 (u.balance + b)) } : DBState).referrals.any
        (fun x => x.referrer_id == r && x.referred_id == d)) = true := by
    simp [List.any_append]
  have hu2 : find_user { db with
      referrals := db.referrals ++ [⟨r, d, b, lv⟩]
      users := set_balance_rows db.users r (max 0 (u.balance + b)) } r
      = some { u with balance := max 0 (u.balance + b) } :=
    find_user_set_balance hu (max 0 (u.balance + b))
  have hcall2 : add_referral { db with
        referrals := db.referrals ++ [⟨r, d, b, lv⟩]
        users := set_balance_rows db.users r (max 0 (u.balance + b)) } r d b lv
      = .ok { db with
              referrals := db.referrals ++ [⟨r, d, b, lv⟩]
              users := set_balance_rows (set_balance_rows db.users r (max 0 (u.balance + b))) r
                (max 0 (max 0 (u.balance + b) + b)) } := by
    simp only [add_referral]
    rw [if_pos hany2, if_pos hb, update_user_balance_eq hu2]
  have hall : ∀ x ∈ db.referrals, ¬ ((x.referrer_id == r && x.referred_id == d) = true) := by
    intro x hx hcontra
    have hx2 : db.referrals.any (fun x => x.referrer_id == r && x.referred_id == d) = true :=
      List.any_eq_true.mpr ⟨x, hx, hcontra⟩
    exact hpairneg hx2
  have hu3 : find_user { db with
      referrals := db.referrals ++ [⟨r, d, b, lv⟩]
      users := set_balance_rows (set_balance_rows db.users r (max 0 (u.balance + b))) r
        (max 0 (max 0 (u.balance + b) + b)) } r
      = some { u with balance := max 0 (max 0 (u.balance + b) + b) } :=
    find_user_set_balance (find_user_set_balance hu (max 0 (u.balance + b)))
      (max 0 (max 0 (u.balance + b) + b))
  have hmax1 : max 0 (u.balance + b) = u.balance + b := max_eq_right (add_nonneg hb0 hb.le)
  refine ⟨_, _, hcall1, hcall2, ?_, ?_⟩
  · show (db.referrals ++ [(⟨r, d, b, lv⟩ : ReferralRow)]).countP
        (fun x => x.referrer_id == r && x.referred_id == d) = 1
    rw [List.countP_append, List.countP_eq_zero.mpr hall]
    simp [List.countP_cons]
  · rw [get_user_balance_eq hu3]
    show max 0 (max 0 (u.balance + b) + b) = u.balance + b + b
    rw [hmax1]
    exact max_eq_right (add_nonneg (add_nonneg hb0 hb.le) hb.le)

def c2_userA : UserRow :=
  { user_id := 1, username := none, phone := none, referred_by := none, balance := 0, is_blocked := false }

def c2_userB : UserRow :=
  { user_id := 2, username := none, phone := none, referred_by := none, balance := 0, is_blocked := false }

def c2_db : DBState :=
  { users := [c2_userA, c2_userB], orders := [], withdraw_requests := [], referrals := [],
    next_order_id := 1, next_withdraw_id := 1 }

/-- Counterexample to claim C2 as stated: calling add_referral(1, 2, 500, 1)
twice from a fresh store leaves one referral row but credits user 1 with
1000, not with a single +500 credit, so the duplicate call is not a no-op. -/
theorem add_referral_twice_credits_twice_counterexample :
    viewBalance (andThen (add_referral c2_db 1 2 500 1) (fun d => add_referral d 1 2 500 1)) 1
      = some 1000
    ∧ viewReferralCount (andThen (add_referral c2_db 1 2 500 1) (fun d => add_referral d 1 2 500 1))
      = some 1
    ∧ ¬ viewBalance (andThen (add_referral c2_db 1 2 500 1) (fun d => add_referral d 1 2 500 1)) 1
      = some 500 := by
  norm_num [add_referral, update_user_balance, set_balance_rows, find_user, get_user_balance,
    andThen, viewBalance, viewReferralCount, c2_db, c2_userA, c2_userB, List.find?, List.any]

/-- Witness for the amended claim C2 at the spec example: two
recordReferral(1, 2, 500) calls give one row and a balance of 0 + 500 + 500. -/
theorem add_referral_duplicate_row_unique_but_recredits_witness :
    ∃ db1 db2, add_referral c2_db 1 2 500 1 = .ok db1 ∧ add_referral db1 1 2 500 1 = .ok db2
      ∧ db2.referrals.countP (fun x => x.referrer_id == 1 && x.referred_id == 2) = 1
      ∧ get_user_balance db2 1 = c2_userA.balance + 500 + 500 :=
  add_referral_duplicate_row_unique_but_recredits c2_db 1 2 500 1 c2_userA rfl
    (by norm_num [c2_userA]) (by norm_num) rfl

/-- The WHERE clause of cancel_order touches no row when the caller does not
own the order. -/
lemma cancel_map_id (l : List OrderRow) (caller oid : Nat)
    (h : ∀ o ∈ l, o.id = oid → o.user_id ≠ caller) :
    l.map (fun o => if o.id = oid ∧ o.user_id = caller then { o with status := RowStatus.rejected } else o) = l := by
  induction l with
  | nil => rfl
  | cons a t ih =>
    have hcond : ¬ (a.id = oid ∧ a.user_id = caller) := by
      rintro ⟨h1, h2⟩
      exact h a (List.mem_cons_self a t) h1 h2
    simp only [List.map_cons, if_neg hcond]
    rw [ih (fun o ho => h o (List.mem_cons_of_mem a ho))]

/-- The owner's cancel rewrites the first row with the given id to rejected,
whatever status it held. -/
lemma find?_cancel_owner (l : List OrderRow) (oid caller : Nat) (o : OrderRow)
    (hfind : l.find? (fun x => x.id == oid) = some o) (howner : o.user_id = caller) :
    (l.map (fun x => if x.id = oid ∧ x.user_id = caller then { x with status := RowStatus.rejected } else x)).find?
        (fun x => x.id == oid) = some { o with status := RowStatus.rejected } := by
  induction l with
  | nil => simp [List.find?] at hfind
  | cons a t ih =>
    by_cases h1 : a.id = oid
    · have hpa : (a.id == oid) = true := by simp [h1]
      simp only [List.find?_cons, hpa] at hfind
      have ha : a = o := Option.some.inj hfind
      subst ha
      have hcond : a.id = oid ∧ a.user_id = caller := ⟨h1, howner⟩
      have hga : (({ a with status := RowStatus.rejected } : OrderRow).id == oid) = true := by
        simp [h1]
      simp only [List.map_cons, if_pos hcond, List.find?_cons, hga]
    · have hpa : (a.id == oid) = false := by simp [h1]
      simp only [List.find?_cons, hpa] at hfind
      have hcond : ¬ (a.id = oid ∧ a.user_id = caller) := fun hc => h1 hc.1
      simp only [List.map_cons, if_neg hcond, List.find?_cons, hpa]
      exact ih hfind

/-- Claim C8 as amended: cancel_order affects zero rows when the calling
user is not the order's owner, but it carries no status guard: the owner's
cancel sets the order to rejected whatever its current status, including
orders already approved or rejected. -/
theorem cancel_order_owner_check_but_no_status_guard (db : DBState) (caller oid : Nat) :
    ((∀ o ∈ db.orders, o.id = oid → o.user_id ≠ caller) → cancel_order db caller oid = db)
    ∧ (∀ o, db.orders.find? (fun x => x.id == oid) = some o → o.user_id = caller →
        (cancel_order db caller oid).orders.find? (fun x => x.id == oid)
          = some { o with status := RowStatus.rejected }) := by
  constructor
  · intro h
    unfold cancel_order
    rw [cancel_map_id db.orders caller oid h]
  · intro o hfind howner
    show (db.orders.map (fun x => if x.id = oid ∧ x.user_id = caller then { x with status := RowStatus.rejected } else x)).find?
        (fun x => x.id == oid) = some { o with status := RowStatus.rejected }
    exact find?_cancel_owner db.orders oid caller o hfind howner

def c8_user : UserRow :=
  { user_id := 7, username := none, phone := none, referred_by := none, balance := 0, is_blocked := false }

def c8_db : DBState :=
  { users := [c8_user], orders := [⟨1, 7, ("u"), ("p"), RowStatus.approved⟩],
    withdraw_requests := [], referrals := [], next_order_id := 2, next_withdraw_id := 1 }

/-- Counterexample to claim C8 as stated: the owner's cancel of an
already-approved order is not a no-op; the approved order flips to
rejected. -/
theorem cancel_order_flips_approved_order_counterexample :
    (cancel_order c8_db 7 1).orders = [⟨1, 7, ("u"), ("p"), RowStatus.rejected⟩]
    ∧ ¬ ((cancel_order c8_db 7 1).orders = c8_db.orders) := by
  constructor
  · rfl
  · decide

/-- Witness for the amended claim C8: a stranger's cancel leaves the store
untouched, while the owner's cancel rewrites the approved order to
rejected. -/
theorem cancel_order_owner_check_but_no_status_guard_witness :
    (cancel_order c8_db 8 1 = c8_db)
    ∧ (cancel_order c8_db 7 1).orders.find? (fun x => x.id == 1)
      = some ⟨1, 7, ("u"), ("p"), RowStatus.rejected⟩ :=
  ⟨(cancel_order_owner_check_but_no_status_guard c8_db 8 1).1 (by decide),
   (cancel_order_owner_check_but_no_status_guard c8_db 7 1).2
     ⟨1, 7, ("u"), ("p"), RowStatus.approved⟩ rfl rfl⟩

/-- Claim C9 as amended: the store-level create_withdraw_request has no
positivity check; with a non-positive amount and an existing user whose
balance is non-negative the call succeeds, inserts the pending row and
changes the balance by minus the amount (a credit when the amount is
negative). -/
theorem create_withdraw_request_accepts_nonpositive_amount (db : DBState) (uid : Nat) (a : ℚ)
    (wallet wtype : String) (u : UserRow) (hu : find_user db uid = some u)
    (ha : a ≤ 0) (hb : 0 ≤ u.balance) :
    ∃ db', create_withdraw_request db uid a wallet wtype = .ok (db', db.next_withdraw_id)
      ∧ db'.withdraw_requests
          = db.withdraw_requests ++ [⟨db.next_withdraw_id, uid, a, wallet, wtype, RowStatus.pending⟩]
      ∧ get_user_balance db' uid = get_user_balance db uid - a := by
  have hle : a ≤ u.balance := le_trans ha hb
  refine ⟨_, create_withdraw_request_success hu hle wallet wtype, rfl, ?_⟩
  have hfind : find_user { db with
      withdraw_requests := db.withdraw_requests ++ [⟨db.next_withdraw_id, uid, a, wallet, wtype, RowStatus.pending⟩],
      next_withdraw_id := db.next_withdraw_id + 1,
      users := set_balance_rows db.users uid (u.balance - a) } uid
      = some { u with balance := u.balance - a } := find_user_set_balance hu (u.balance - a)
  rw [get_user_balance_eq hfind, get_user_balance_eq hu]

def c9_user : UserRow :=
  { user_id := 4, username := none, phone := none, referred_by := none, balance := 0, is_blocked := false }

def c9_db : DBState :=
  { users := [c9_user], orders := [], withdraw_requests := [], referrals := [],
    next_order_id := 1, next_withdraw_id := 1 }

/-- Counterexample to claim C9 as stated: a withdrawal of amount -5 by a
user with balance 0 does not fail; it succeeds, inserts one pending row and
leaves the balance at 5. -/
theorem create_withdraw_request_negative_amount_succeeds_counterexample :
    viewCreate (create_withdraw_request c9_db 4 (-5) ("w") ("card")) 4 = some (1, 5)
    ∧ ¬ viewCreate (create_withdraw_request c9_db 4 (-5) ("w") ("card")) 4 = none := by
  constructor
  · norm_num [create_withdraw_request, find_user, get_user_balance, set_balance_rows, viewCreate,
      c9_db, c9_user, List.find?]
  · norm_num [create_withdraw_request, find_user, get_user_balance, set_balance_rows, viewCreate,
      c9_db, c9_user, List.find?]
    exact Option.some_ne_none _

/-- Witness for the amended claim C9 at amount -5 on balance 0. -/
theorem create_withdraw_request_accepts_nonpositive_amount_witness :
    ∃ db', create_withdraw_request c9_db 4 (-5) ("w") ("card") = .ok (db', c9_db.next_withdraw_id)
      ∧ db'.withdraw_requests
          = c9_db.withdraw_requests ++ [⟨c9_db.next_withdraw_id, 4, (-5), ("w"), ("card"), RowStatus.pending⟩]
      ∧ get_user_balance db' 4 = get_user_balance c9_db 4 - (-5) :=
  create_withdraw_request_accepts_nonpositive_amount c9_db 4 (-5) ("w") ("card") c9_user rfl
    (by norm_num) (by norm_num [c9_user])

/-- add_user_balance's UPDATE matches no row for an unknown user id. -/
lemma add_balance_map_id (l : List UserRow) (uid : Nat) (a : ℚ)
    (h : ∀ r ∈ l, r.user_id ≠ uid) :
    l.map (fun r => if r.user_id = uid then { r with balance := r.balance + a } else r) = l := by
  induction l with
  | nil => rfl
  | cons x t ih =>
    have hcond : ¬ (x.user_id = uid) := h x (List.mem_cons_self x t)
    simp only [List.map_cons, if_neg hcond]
    rw [ih (fun r hr => h r (List.mem_cons_of_mem x hr))]

/-- Claim C10: add_user_balance never raises; on an unknown user id the
UPDATE affects zero rows and the whole store is unchanged, and on an
existing user it adds the amount without any clamping. -/
theorem add_user_balance_ignores_unknown_user (db : DBState) (uid : Nat) (a : ℚ) :
    ((∀ r ∈ db.users, r.user_id ≠ uid) → add_user_balance db uid a = db)
    ∧ (∀ u, find_user db uid = some u →
        get_user_balance (add_user_balance db uid a) uid = u.balance + a) := by
  constructor
  · intro h
    unfold add_user_balance
    rw [add_balance_map_id db.users uid a h]
  · intro u hu
    have hfind : find_user (add_user_balance db uid a) uid
        = some { u with balance := u.balance + a } := by
      show (db.users.map (fun r => if r.user_id = uid then { r with balance := r.balance + a } else r)).find?
          (fun r => r.user_id == uid) = _
      rw [find?_map_user_keyed (fun r => { r with balance := r.balance + a }) (fun _ => rfl)]
      rw [show db.users.find? (fun r => r.user_id == uid) = some u from hu]
      rfl
    rw [get_user_balance_eq hfind]

def w10_user : UserRow :=
  { user_id := 3, username := none, phone := none, referred_by := none, balance := 40, is_blocked := false }

def w10_db : DBState :=
  { users := [w10_user], orders := [], withdraw_requests := [], referrals := [],
    next_order_id := 1, next_withdraw_id := 1 }

/-- Witness for claim C10: crediting unknown user 99 leaves the store
unchanged, crediting existing user 3 adds without clamping. -/
theorem add_user_balance_ignores_unknown_user_witness :
    (add_user_balance w10_db 99 7 = w10_db)
    ∧ get_user_balance (add_user_balance w10_db 3 7) 3 = w10_user.balance + 7 :=
  ⟨(add_user_balance_ignores_unknown_user w10_db 99 7).1 (by decide),
   (add_user_balance_ignores_unknown_user w10_db 3 7).2 w10_user rfl⟩

def c1_user : UserRow :=
  { user_id := 7, username := none, phone := none, referred_by := none, balance := 0, is_blocked := false }

def c1_db : DBState :=
  { users := [c1_user], orders := [⟨1, 7, ("u"), ("p"), RowStatus.pending⟩],
    withdraw_requests := [], referrals := [], next_order_id := 2, next_withdraw_id := 1 }

/-- Claim C1 evaluated at the failing input: the approve_order handler has
no status guard, so approving order 1 twice credits its owner 10000 on each
call, ending at balance 20000 instead of the claimed single 10000 credit. -/
theorem approve_order_twice_credits_twice :
    get_user_balance (approve_order (approve_order c1_db 1) 1) 7 = 20000
    ∧ ¬ get_user_balance (approve_order (approve_order c1_db 1) 1) 7 = 10000 := by
  constructor
  · norm_num [approve_order, update_order_status, add_user_balance, get_user_balance, find_user,
      c1_db, c1_user, List.find?]
  · norm_num [approve_order, update_order_status, add_user_balance, get_user_balance, find_user,
      c1_db, c1_user, List.find?]

def c3_user : UserRow :=
  { user_id := 5, username := none, phone := none, referred_by := none, balance := 600, is_blocked := false }

def c3_db : DBState :=
  { users := [c3_user], orders := [],
    withdraw_requests := [⟨3, 5, 400, ("w"), ("card"), RowStatus.pending⟩],
    referrals := [], next_order_id := 1, next_withdraw_id := 4 }

/-- Claim C3 evaluated at the failing input: rejecting withdraw request 3
(amount 400, owner balance 600 after the creation-time debit) twice refunds
twice — the balance goes 600 to 1000 to 1400 — on both the
reject_withdraw_request_and_refund path and the set_withdraw_status path;
neither second call fails, because no current-status check exists. -/
theorem reject_withdraw_twice_refunds_twice :
    viewBalance (andThen (reject_withdraw_request_and_refund c3_db 3)
      (fun d => reject_withdraw_request_and_refund d 3)) 5 = some 1400
    ∧ viewBalance (andThen (set_withdraw_status c3_db 3 RowStatus.rejected)
      (fun d => set_withdraw_status d 3 RowStatus.rejected)) 5 = some 1400
    ∧ ¬ viewBalance (andThen (reject_withdraw_request_and_refund c3_db 3)
      (fun d => reject_withdraw_request_and_refund d 3)) 5 = some 1000 := by
  refine ⟨?_, ?_, ?_⟩ <;>
    norm_num [reject_withdraw_request_and_refund, set_withdraw_status, update_user_balance,
      update_withdraw_request_status, set_withdraw_rows, set_balance_rows, find_user,
      find_withdraw, get_user_balance, andThen, viewBalance, c3_db, c3_user, List.find?]

def c4_user : UserRow :=
  { user_id := 9, username := none, phone := none, referred_by := none, balance := 600, is_blocked := false }

def c4_db : DBState :=
  { users := [c4_user], orders := [],
    withdraw_requests := [⟨2, 9, 400, ("w"), ("card"), RowStatus.pending⟩],
    referrals := [], next_order_id := 1, next_withdraw_id := 3 }

/-- Claim C4 evaluated at the failing input: approving pending withdraw
request 2 (amount 400) through the accept_withdraw callback moves the
owner's balance from 600 to 800 — update_user_balance is called with delta
current - amount = 200 — while the admin-panel process_payment path and the
bare set_withdraw_status leave the balance at 600. -/
theorem accept_withdraw_changes_balance_on_approval :
    get_user_balance (accept_withdraw c4_db 2) 9 = 800
    ∧ ¬ get_user_balance (accept_withdraw c4_db 2) 9 = 600
    ∧ get_user_balance (process_payment c4_db 2) 9 = 600
    ∧ viewBalance (set_withdraw_status c4_db 2 RowStatus.approved) 9 = some 600 := by
  have hne : RowStatus.approved ≠ RowStatus.rejected := by decide
  refine ⟨?_, ?_, ?_, ?_⟩ <;>
    norm_num [accept_withdraw, process_payment, set_withdraw_status, update_user_balance,
      update_withdraw_request_status, set_withdraw_rows, set_balance_rows, find_user,
      find_withdraw, get_user_balance, andThen, viewBalance, c4_db, c4_user,
      List.find?, List.filter, if_neg hne]
